import Mathlib

/-!
Verification development for the `ghost` desktop recorder.

The definitions below are a shallow embedding of the recording core of the
repository, translated from:
  * `src/src-tauri/src/types/devents.rs`   (input-action data model),
  * `src/src-tauri/src/recording/recording.rs`
    (`RecordingSession`, `event_capture_task`, `start_recording`,
     `stop_recording`, `monitor_segments`, `get_ffmpeg_command`,
     `save_events_to_csv`).

Modelling conventions, stated once here and referenced from the definitions:
  * `Uuid` values are modelled as `Nat` identifiers.
  * Rust `f64` quantities (pointer coordinates, display scale factor, segment
    times) are modelled as rationals `ℚ`; the claims under study never depend
    on binary floating-point rounding, only on which values flow where.
  * Machine-integer casts (`as i32`, `as u64`, `as i64`) are modelled
    explicitly with truncation/saturation/wrapping on `Int`/`Nat`.
  * Network, file-system and shell effects are reified as values
    (`Effect`, `UploadTask`) so that theorems can speak about which effects
    an operation produces.  Log lines at `debug!`/`info!` level are not
    modelled except where a claim needs them.
-/

namespace Ghost

/-! ## Input-action data model, from `src/src-tauri/src/types/devents.rs` -/

/-- `rdev::Button`, the OS mouse-button identifier consumed by
`Into<MouseAction> for Button` (devents.rs lines 25-34). -/
inductive Button
  | Left
  | Right
  | Middle
  | Unknown (byte : Nat)
deriving DecidableEq

/-- `MouseAction` (devents.rs lines 5-12). -/
inductive MouseAction
  | left
  | right
  | middle
  | other (byte : Nat)
deriving DecidableEq

/-- `Into<MouseAction> for Button` (devents.rs lines 25-34). -/
def button_into : Button → MouseAction
  | .Left => .left
  | .Right => .right
  | .Middle => .middle
  | .Unknown byte => .other byte

/-- `KeyboardActionKey` (devents.rs lines 36-154): the closed symbolic key
enumeration sent to the server.  `Unknown` carries a raw `u32` scan code,
modelled as `Nat`. -/
inductive KeyboardActionKey
  | CapsLock | Shift | Control | Fn | Alt | Meta
  | F1 | F2 | F3 | F4 | F5 | F6 | F7 | F8 | F9 | F10 | F11 | F12
  | A | B | C | D | E | F | G | H | I | J | K | L | M
  | N | O | P | Q | R | S | T | U | V | W | X | Y | Z
  | Num0 | Num1 | Num2 | Num3 | Num4 | Num5 | Num6 | Num7 | Num8 | Num9
  | ArrowUp | ArrowDown | ArrowLeft | ArrowRight
  | Home | End | PageUp | PageDown
  | Escape | Enter | Tab | Space | Backspace | Insert | Delete
  | NumLock | ScrollLock | Pause | PrintScreen
  | Grave | Minus | Equal | BracketLeft | BracketRight
  | Semicolon | Quote | Comma | Period | Slash | Backslash
  | Unknown (code : Nat)

/-- `rdev::Key`, the OS key identifier.  The constructors are exactly the
variants of the `rdev` crate's `Key` enum referenced by devents.rs lines
156-307 (both the mapped arms and the commented-out arms, which enumerate the
remaining variants of the dependency).  `Unknown` carries the platform scan
code; `RawKey` abstracts `rdev::Key::RawKey`'s platform-specific payload as a
numeric code. -/
inductive Key
  | Alt | AltGr | Backspace | CapsLock | ControlLeft | ControlRight
  | Delete | DownArrow | End | Escape
  | F1 | F2 | F3 | F4 | F5 | F6 | F7 | F8 | F9 | F10 | F11 | F12
  | F13 | F14 | F15 | F16 | F17 | F18 | F19 | F20 | F21 | F22 | F23 | F24
  | Home | LeftArrow | MetaLeft | MetaRight | PageDown | PageUp
  | Return | RightArrow | ShiftLeft | ShiftRight | Space | Tab | UpArrow
  | PrintScreen | ScrollLock | Pause | NumLock | BackQuote
  | Num1 | Num2 | Num3 | Num4 | Num5 | Num6 | Num7 | Num8 | Num9 | Num0
  | Minus | Equal
  | KeyQ | KeyW | KeyE | KeyR | KeyT | KeyY | KeyU | KeyI | KeyO | KeyP
  | LeftBracket | RightBracket
  | KeyA | KeyS | KeyD | KeyF | KeyG | KeyH | KeyJ | KeyK | KeyL
  | SemiColon | Quote | BackSlash
  | IntlBackslash | IntlRo | IntlYen | KanaMode
  | KeyZ | KeyX | KeyC | KeyV | KeyB | KeyN | KeyM
  | Comma | Dot | Slash | Insert
  | KpReturn | KpMinus | KpPlus | KpMultiply | KpDivide
  | KpDecimal | KpEqual | KpComma
  | Kp0 | Kp1 | Kp2 | Kp3 | Kp4 | Kp5 | Kp6 | Kp7 | Kp8 | Kp9
  | VolumeUp | VolumeDown | VolumeMute
  | Lang1 | Lang2 | Lang3 | Lang4 | Lang5
  | Function | Apps | Cancel | Clear | Kana | Hangul | Junja | Final | Hanja
  | Print | Select | Execute | Help | Sleep | Separator
  | Unknown (code : Nat)
  | RawKey (code : Nat)

/-- `Into<KeyboardActionKey> for rdev::Key` (devents.rs lines 156-307).
The match arms are translated in source order; every variant without an
explicit arm in the source (the commented-out ones) falls to the final
wildcard `_ => KeyboardActionKey::Unknown(0)`. -/
def key_into : Key → KeyboardActionKey
  | .Alt => .Alt
  | .AltGr => .Alt
  | .Backspace => .Backspace
  | .CapsLock => .CapsLock
  | .ControlLeft => .Control
  | .ControlRight => .Control
  | .Delete => .Delete
  | .DownArrow => .ArrowDown
  | .End => .End
  | .Escape => .Escape
  | .F1 => .F1
  | .F10 => .F10
  | .F11 => .F11
  | .F12 => .F12
  | .F2 => .F2
  | .F3 => .F3
  | .F4 => .F4
  | .F5 => .F5
  | .F6 => .F6
  | .F7 => .F7
  | .F8 => .F8
  | .F9 => .F9
  | .Home => .Home
  | .LeftArrow => .ArrowLeft
  | .MetaLeft => .Meta
  | .MetaRight => .Meta
  | .PageDown => .PageDown
  | .PageUp => .PageUp
  | .Return => .Enter
  | .RightArrow => .ArrowRight
  | .ShiftLeft => .Shift
  | .ShiftRight => .Shift
  | .Space => .Space
  | .Tab => .Tab
  | .UpArrow => .ArrowUp
  | .PrintScreen => .PrintScreen
  | .ScrollLock => .ScrollLock
  | .Pause => .Pause
  | .NumLock => .NumLock
  | .BackQuote => .Grave
  | .Num1 => .Num1
  | .Num2 => .Num2
  | .Num3 => .Num3
  | .Num4 => .Num4
  | .Num5 => .Num5
  | .Num6 => .Num6
  | .Num7 => .Num7
  | .Num8 => .Num8
  | .Num9 => .Num9
  | .Num0 => .Num0
  | .Minus => .Minus
  | .Equal => .Equal
  | .KeyQ => .Q
  | .KeyW => .W
  | .KeyE => .E
  | .KeyR => .R
  | .KeyT => .T
  | .KeyY => .Y
  | .KeyU => .U
  | .KeyI => .I
  | .KeyO => .O
  | .KeyP => .P
  | .LeftBracket => .BracketLeft
  | .RightBracket => .BracketRight
  | .KeyA => .A
  | .KeyS => .S
  | .KeyD => .D
  | .KeyF => .F
  | .KeyG => .G
  | .KeyH => .H
  | .KeyJ => .J
  | .KeyK => .K
  | .KeyL => .L
  | .SemiColon => .Semicolon
  | .Quote => .Quote
  | .BackSlash => .Backslash
  | .KeyZ => .Z
  | .KeyX => .X
  | .KeyC => .C
  | .KeyV => .V
  | .KeyB => .B
  | .KeyN => .N
  | .KeyM => .M
  | .Comma => .Comma
  | .Dot => .Period
  | .Slash => .Slash
  | .Insert => .Insert
  | .Function => .Fn
  | .Unknown code => .Unknown code
  | _ => .Unknown 0

/-- `KeyboardAction` (devents.rs lines 310-315); `duration` is an `i32` number
of milliseconds. -/
structure KeyboardAction where
  key : KeyboardActionKey
  duration : Int

/-- `ScrollAction` (devents.rs lines 317-322); signed `i32` wheel deltas. -/
structure ScrollAction where
  x : Int
  y : Int
deriving DecidableEq

/-! ## Machine-integer casts used by `event_capture_task` -/

/-- Rust `f64 as i32` (saturating truncation toward zero), on the rational
model of `f64`.  Used for `last_mouse_pos.0 as i32` and
`last_mouse_pos.1 as i32` (recording.rs lines 469-470). -/
def f64_to_i32 (q : ℚ) : Int :=
  let t : Int := if 0 ≤ q then Int.floor q else Int.ceil q
  max (-2147483648) (min 2147483647 t)

/-- Rust `u64 as i64` (two's-complement reinterpretation).  Used for
`timestamp as i64` (recording.rs line 471); the `u64` is modelled as a `Nat`
reduced modulo `2^64`. -/
def u64_to_i64 (n : Nat) : Int :=
  let m : Nat := n % 18446744073709551616
  if m < 9223372036854775808 then (m : Int) else (m : Int) - 18446744073709551616

/-- Rust `i64 as i32` (two's-complement wrap-around).  Used for
`delta_x as i32` / `delta_y as i32` (recording.rs lines 488-489). -/
def i64_to_i32 (n : Int) : Int :=
  (n + 2147483648) % 4294967296 - 2147483648

/-! ## Event capture, from `src/src-tauri/src/recording/recording.rs` -/

/-- `rdev::EventType`, the OS input event delivered to the `listen` callback.
Pointer coordinates and wheel deltas keep their source types (`f64` modelled
as `ℚ`, `i64` as `Int`). -/
inductive EventType
  | keyPress (key : Key)
  | keyRelease (key : Key)
  | buttonPress (button : Button)
  | buttonRelease (button : Button)
  | mouseMove (x y : ℚ)
  | wheel (delta_x delta_y : Int)

/-- `RecordingEvent` (recording.rs lines 26-32).  The source stores the whole
`rdev::Event`; only its `event_type` field is ever read (CSV export), so the
model keeps exactly that. -/
structure RecordingEvent where
  timestamp : Nat
  event : EventType
  mouse_x : ℚ
  mouse_y : ℚ

/-- `RecordingSession` (recording.rs lines 53-58): the single Session Store
entry.  `output_dir` is the per-session directory `<app-data>/output/<ts>`;
derived paths (`events.csv`, `segments.csv`, `timestamps.txt`, `recordings/`)
are obtained by appending to it. -/
structure RecordingSession where
  id : Nat
  events : List RecordingEvent
  output_dir : String

/-- `CreateDeventRequest` (recording.rs lines 34-43): the JSON body POSTed to
`{BASE_URL}/devents/create`, one per captured event. -/
structure CreateDeventRequest where
  session_id : Nat
  mouse_action : Option MouseAction
  keyboard_action : Option KeyboardAction
  scroll_action : Option ScrollAction
  mouse_x : Int
  mouse_y : Int
  event_timestamp_nanos : Int

/-- Result of one invocation of the `listen` callback inside
`event_capture_task`: the updated closure-captured `last_mouse_pos`, the
updated Session Store slot, and the `devents/create` POST spawned on the
async runtime, if any. -/
structure CaptureStep where
  last_mouse_pos : ℚ × ℚ
  session : Option RecordingSession
  post : Option CreateDeventRequest

/-- The body of the `listen` callback in `event_capture_task` (recording.rs
lines 427-511), for one delivered OS event.  Parameters model the ambient
reads the callback performs: `is_recording` is the atomic stop flag, `clock`
is `Utc::now().timestamp_nanos_opt()` (`none` after year 2262), and
`scale_factor` is `main_window.scale_factor()` with its `unwrap_or(1.0)`
default.  Faithful to the source, the `RecordingEvent` is pushed onto the
session's buffer *before* the event is classified, so key/button releases are
buffered even though they produce no POST (`_ => return` skips only the
network request). -/
def event_capture_step (is_recording : Bool) (last_mouse_pos : ℚ × ℚ)
    (session : Option RecordingSession) (clock : Option Nat)
    (scale_factor : Option ℚ) (event : EventType) : CaptureStep :=
  if is_recording then
    match clock with
    | none => ⟨last_mouse_pos, session, none⟩
    | some timestamp =>
      let scale := scale_factor.getD 1
      match event with
      | .mouseMove x y => ⟨(x * scale, y * scale), session, none⟩
      | ev =>
        match session with
        | none => ⟨last_mouse_pos, none, none⟩
        | some s =>
          let recording_event : RecordingEvent :=
            ⟨timestamp, ev, last_mouse_pos.1, last_mouse_pos.2⟩
          let s2 : RecordingSession := { s with events := s.events ++ [recording_event] }
          let request : CreateDeventRequest :=
            ⟨s.id, none, none, none,
             f64_to_i32 last_mouse_pos.1, f64_to_i32 last_mouse_pos.2,
             u64_to_i64 timestamp⟩
          match ev with
          | .buttonPress btn =>
            ⟨last_mouse_pos, some s2,
             some { request with mouse_action := some (button_into btn) }⟩
          | .keyPress key =>
            ⟨last_mouse_pos, some s2,
             some { request with keyboard_action := some ⟨key_into key, 100⟩ }⟩
          | .wheel delta_x delta_y =>
            ⟨last_mouse_pos, some s2,
             some { request with scroll_action := some ⟨i64_to_i32 delta_x, i64_to_i32 delta_y⟩ }⟩
          | _ => ⟨last_mouse_pos, some s2, none⟩
  else ⟨last_mouse_pos, session, none⟩

/-- `true` exactly for the event kinds whose `match` arm in the callback
fills an action and spawns the `devents/create` POST (recording.rs lines
474-494); everything else hits `_ => return`. -/
def posts_devent : EventType → Bool
  | .buttonPress _ => true
  | .keyPress _ => true
  | .wheel _ _ => true
  | _ => false

/-! ## CSV export, from `RecordingSession::save_events_to_csv`
(recording.rs lines 100-127) -/

/-- Rendering of the rational model of an `f64` as the source's
`to_string()` / `{}` formatting does for integral values.  For non-integral
values Rust prints a decimal expansion while this model prints `num/den`;
no claim under study depends on that textual difference. -/
def f64_display (q : ℚ) : String :=
  if q.den = 1 then toString q.num else toString q

/-- The derived `Debug` name of an `rdev::Key` variant, as produced by
`format!("{:?}", key)` in `save_events_to_csv`.  For `RawKey` the payload
rendering is abstracted to the numeric code. -/
def key_debug_name : Key → String
  | .Alt => "Alt" | .AltGr => "AltGr" | .Backspace => "Backspace"
  | .CapsLock => "CapsLock" | .ControlLeft => "ControlLeft"
  | .ControlRight => "ControlRight" | .Delete => "Delete"
  | .DownArrow => "DownArrow" | .End => "End" | .Escape => "Escape"
  | .F1 => "F1" | .F2 => "F2" | .F3 => "F3" | .F4 => "F4" | .F5 => "F5"
  | .F6 => "F6" | .F7 => "F7" | .F8 => "F8" | .F9 => "F9" | .F10 => "F10"
  | .F11 => "F11" | .F12 => "F12" | .F13 => "F13" | .F14 => "F14"
  | .F15 => "F15" | .F16 => "F16" | .F17 => "F17" | .F18 => "F18"
  | .F19 => "F19" | .F20 => "F20" | .F21 => "F21" | .F22 => "F22"
  | .F23 => "F23" | .F24 => "F24" | .Home => "Home"
  | .LeftArrow => "LeftArrow" | .MetaLeft => "MetaLeft"
  | .MetaRight => "MetaRight" | .PageDown => "PageDown" | .PageUp => "PageUp"
  | .Return => "Return" | .RightArrow => "RightArrow"
  | .ShiftLeft => "ShiftLeft" | .ShiftRight => "ShiftRight"
  | .Space => "Space" | .Tab => "Tab" | .UpArrow => "UpArrow"
  | .PrintScreen => "PrintScreen" | .ScrollLock => "ScrollLock"
  | .Pause => "Pause" | .NumLock => "NumLock" | .BackQuote => "BackQuote"
  | .Num1 => "Num1" | .Num2 => "Num2" | .Num3 => "Num3" | .Num4 => "Num4"
  | .Num5 => "Num5" | .Num6 => "Num6" | .Num7 => "Num7" | .Num8 => "Num8"
  | .Num9 => "Num9" | .Num0 => "Num0" | .Minus => "Minus" | .Equal => "Equal"
  | .KeyQ => "KeyQ" | .KeyW => "KeyW" | .KeyE => "KeyE" | .KeyR => "KeyR"
  | .KeyT => "KeyT" | .KeyY => "KeyY" | .KeyU => "KeyU" | .KeyI => "KeyI"
  | .KeyO => "KeyO" | .KeyP => "KeyP" | .LeftBracket => "LeftBracket"
  | .RightBracket => "RightBracket" | .KeyA => "KeyA" | .KeyS => "KeyS"
  | .KeyD => "KeyD" | .KeyF => "KeyF" | .KeyG => "KeyG" | .KeyH => "KeyH"
  | .KeyJ => "KeyJ" | .KeyK => "KeyK" | .KeyL => "KeyL"
  | .SemiColon => "SemiColon" | .Quote => "Quote" | .BackSlash => "BackSlash"
  | .IntlBackslash => "IntlBackslash" | .IntlRo => "IntlRo"
  | .IntlYen => "IntlYen" | .KanaMode => "KanaMode"
  | .KeyZ => "KeyZ" | .KeyX => "KeyX" | .KeyC => "KeyC" | .KeyV => "KeyV"
  | .KeyB => "KeyB" | .KeyN => "KeyN" | .KeyM => "KeyM"
  | .Comma => "Comma" | .Dot => "Dot" | .Slash => "Slash"
  | .Insert => "Insert" | .KpReturn => "KpReturn" | .KpMinus => "KpMinus"
  | .KpPlus => "KpPlus" | .KpMultiply => "KpMultiply"
  | .KpDivide => "KpDivide" | .KpDecimal => "KpDecimal"
  | .KpEqual => "KpEqual" | .KpComma => "KpComma"
  | .Kp0 => "Kp0" | .Kp1 => "Kp1" | .Kp2 => "Kp2" | .Kp3 => "Kp3"
  | .Kp4 => "Kp4" | .Kp5 => "Kp5" | .Kp6 => "Kp6" | .Kp7 => "Kp7"
  | .Kp8 => "Kp8" | .Kp9 => "Kp9" | .VolumeUp => "VolumeUp"
  | .VolumeDown => "VolumeDown" | .VolumeMute => "VolumeMute"
  | .Lang1 => "Lang1" | .Lang2 => "Lang2" | .Lang3 => "Lang3"
  | .Lang4 => "Lang4" | .Lang5 => "Lang5" | .Function => "Function"
  | .Apps => "Apps" | .Cancel => "Cancel" | .Clear => "Clear"
  | .Kana => "Kana" | .Hangul => "Hangul" | .Junja => "Junja"
  | .Final => "Final" | .Hanja => "Hanja" | .Print => "Print"
  | .Select => "Select" | .Execute => "Execute" | .Help => "Help"
  | .Sleep => "Sleep" | .Separator => "Separator"
  | .Unknown code => "Unknown(" ++ toString code ++ ")"
  | .RawKey code => "RawKey(" ++ toString code ++ ")"

/-- The derived `Debug` name of an `rdev::Button` variant. -/
def button_debug_name : Button → String
  | .Left => "Left"
  | .Right => "Right"
  | .Middle => "Middle"
  | .Unknown byte => "Unknown(" ++ toString byte ++ ")"

/-- `format!("{:?}", event.event_type)`: the `event_type` CSV column
(recording.rs line 105).  Braces that are literal text are written with
their escapes. -/
def event_type_debug : EventType → String
  | .keyPress key => "KeyPress(" ++ key_debug_name key ++ ")"
  | .keyRelease key => "KeyRelease(" ++ key_debug_name key ++ ")"
  | .buttonPress button => "ButtonPress(" ++ button_debug_name button ++ ")"
  | .buttonRelease button => "ButtonRelease(" ++ button_debug_name button ++ ")"
  | .mouseMove x y =>
      "MouseMove \x7b x: " ++ f64_display x ++ ", y: " ++ f64_display y ++ " \x7d"
  | .wheel delta_x delta_y =>
      "Wheel \x7b delta_x: " ++ toString delta_x ++ ", delta_y: " ++ toString delta_y ++ " \x7d"

/-- The `details` CSV column: the `match event.event_type` in
`save_events_to_csv` (recording.rs lines 106-115). -/
def event_details : EventType → String
  | .keyPress key => key_debug_name key
  | .keyRelease key => key_debug_name key
  | .buttonPress button => button_debug_name button
  | .buttonRelease button => button_debug_name button
  | .mouseMove x y => "x: " ++ f64_display x ++ ", y: " ++ f64_display y
  | .wheel delta_x delta_y =>
      "delta_x: " ++ toString delta_x ++ ", delta_y: " ++ toString delta_y

/-- The header record written first by `save_events_to_csv`
(recording.rs line 102). -/
def csv_header : List String :=
  ["timestamp", "event_type", "details", "mouse_x", "mouse_y"]

/-- One data record of `events.csv` (recording.rs lines 116-122). -/
def event_csv_row (e : RecordingEvent) : List String :=
  [toString e.timestamp, event_type_debug e.event, event_details e.event,
   f64_display e.mouse_x, f64_display e.mouse_y]

/-- `RecordingSession::save_events_to_csv` (recording.rs lines 100-127),
modelled as the list of CSV records it writes to `events.csv`: the header
followed by one record per buffered event, in buffer order.  Writer failure
is modelled by the `csv_ok` parameter of `stop_recording`. -/
def save_events_to_csv (s : RecordingSession) : List (List String) :=
  csv_header :: s.events.map event_csv_row

/-! ## Session Controller, from `RecorderState` (recording.rs lines 207-418)

`RecorderState` carries thread handles, the ffmpeg child handle and the async
runtime besides the two fields below; those are synchronisation plumbing with
no influence on the claims under study and are abstracted away. -/

/-- The observable `RecorderState`: the `is_recording` atomic flag and the
single Session Store slot `session : Mutex<Option<RecordingSession>>`. -/
structure RecorderState where
  is_recording : Bool
  session : Option RecordingSession

/-- Errors returned by the controller operations.  Each constructor records
the `anyhow` error produced at the corresponding source location:
`alreadyActive` is `anyhow!("Recording is already in progress")` (line 233),
`sessionSetupFailed` is a propagated directory-creation failure from
`RecordingSession::new` (lines 71-74), `noActiveSession` is
`anyhow!("No active recording session")` (line 413), `csvWriteFailed` is a
propagated `csv` error from `save_events_to_csv()?` (line 407), and
`canonicalizeFailed` is a propagated io error from
`output_dir.canonicalize()?` (line 408). -/
inductive RecordingError
  | alreadyActive
  | sessionSetupFailed
  | noActiveSession
  | csvWriteFailed
  | canonicalizeFailed
deriving DecidableEq

/-- Externally visible side effects of the controller operations. -/
inductive Effect
  | writeCsv (path : String) (rows : List (List String))
  | emitEvent (name : String)
  | postDevent (request : CreateDeventRequest)
  | logError (message : String)

/-- Outcome of one controller operation: the new state, the `Result` returned
to the caller, and the effects performed. -/
structure OpResult where
  state : RecorderState
  result : Except RecordingError Unit
  effects : List Effect

/-- Whether spawning the ffmpeg subprocess succeeds.  The spawn happens on
the detached ffmpeg worker thread (recording.rs lines 251-282), *after*
`start_recording` has already stored the session and returned. -/
inductive SpawnOutcome
  | spawnOk
  | spawnFail

/-- `RecorderState::start_recording` (recording.rs lines 230-386).
`new_session` models the fallible `RecordingSession::new` (fresh UUID,
timestamped directory creation); `none` is a propagated directory-creation
failure.  The encoder spawn outcome cannot influence the returned `Result`
or the stored session: it is observed only on the detached worker thread,
which on failure logs `error!("Failed to start FFmpeg: ...")` and panics
(killing that thread alone).  The `logError` effect records that log line;
its position in the list is not an ordering statement, since the thread runs
concurrently with the remainder of `start_recording`. -/
def start_recording (st : RecorderState) (new_session : Option RecordingSession)
    (spawn : SpawnOutcome) : OpResult :=
  match st.session with
  | some _ => ⟨st, .error .alreadyActive, []⟩
  | none =>
    match new_session with
    | none => ⟨st, .error .sessionSetupFailed, []⟩
    | some s =>
      ⟨⟨true, some s⟩, .ok (),
        match spawn with
        | .spawnOk => [.emitEvent "recording_started"]
        | .spawnFail => [.emitEvent "recording_started", .logError "Failed to start FFmpeg"]⟩

/-- The `#[tauri::command] start_recording` wrapper (recording.rs lines
604-610): it discards the `Result` of `RecorderState::start_recording`
(`_ = state.start_recording()`) and returns unit, so no error reaches the
shell caller. -/
def start_recording_command (st : RecorderState)
    (new_session : Option RecordingSession) (spawn : SpawnOutcome) :
    RecorderState × List Effect :=
  let r := start_recording st new_session spawn
  (r.state, r.effects)

/-- `RecorderState::stop_recording` (recording.rs lines 388-417).  It clears
the stop flag, joins the worker threads (no modelled effect), and then, with
the session slot still *never emptied* (the source uses
`session_guard.as_mut()` and no `take()`), writes `events.csv` and emits
`recording_complete`.  `csv_ok` models success of the CSV writer
(`save_events_to_csv()?`), `canonicalize_ok` success of
`output_dir.canonicalize()?`, which is evaluated after the CSV write and
before the emit. -/
def stop_recording (st : RecorderState) (csv_ok canonicalize_ok : Bool) : OpResult :=
  let st2 : RecorderState := { st with is_recording := false }
  match st2.session with
  | some s =>
    if csv_ok then
      if canonicalize_ok then
        ⟨st2, .ok (),
         [.writeCsv (s.output_dir ++ "/events.csv") (save_events_to_csv s),
          .emitEvent "recording_complete"]⟩
      else
        ⟨st2, .error .canonicalizeFailed,
         [.writeCsv (s.output_dir ++ "/events.csv") (save_events_to_csv s)]⟩
    else ⟨st2, .error .csvWriteFailed, []⟩
  | none => ⟨st2, .error .noActiveSession, []⟩

/-- The `devents/create` POSTs among a list of effects. -/
def devent_posts (effects : List Effect) : List Effect :=
  effects.filter fun e =>
    match e with
    | .postDevent _ => true
    | _ => false

/-! ## Encoder invocation, from `get_ffmpeg_command`
(recording.rs lines 130-192) -/

/-- The three `cfg(target_os = ...)` blocks of `get_ffmpeg_command`. -/
inductive Platform
  | macos
  | windows
  | linux
deriving DecidableEq

/-- The OS-specific input arguments (recording.rs lines 138-158). -/
def ffmpeg_input_args : Platform → List String
  | .macos => ["-f", "avfoundation", "-capture_cursor", "1", "-i", "2:none"]
  | .windows => ["-f", "gdigrab", "-capture_cursor", "1", "-i", "desktop"]
  | .linux => ["-f", "x11grab", "-capture_cursor", "1", "-i", ":0.0"]

/-- `get_ffmpeg_command` (recording.rs lines 130-192) as the argument vector
handed to the ffmpeg subprocess, in source order: the platform input block,
the common configuration, `.output(video_output_path)`, and the timestamp
track.  The filter string's apostrophes are written with their escapes. -/
def get_ffmpeg_command (platform : Platform)
    (video_output_path segment_csv_path timestamp_path : String) : List String :=
  ffmpeg_input_args platform ++
  ["-framerate", "30",
   "-vcodec", "libx264",
   "-preset", "ultrafast",
   "-crf", "23",
   "-filter_complex",
   "settb=1/1000,setpts=\x27RTCTIME/1000\x27,mpdecimate,split=2[out][ts]",
   "-map", "[out]",
   "-vcodec", "libx264",
   "-pix_fmt", "yuv420p",
   "-threads", "0",
   "-force_key_frames", "expr:gte(t,n_forced*60)",
   "-f", "segment",
   "-segment_time", "60",
   "-reset_timestamps", "1",
   "-segment_format", "mkv",
   "-segment_list_type", "csv",
   "-segment_list", segment_csv_path,
   video_output_path,
   "-map", "[ts]",
   "-f", "mkvtimestamp_v2",
   timestamp_path,
   "-vsync", "0"]

/-- The segment output template passed to `.output(...)` by the ffmpeg worker
closure: `video_dir_path.join("chunk_%04d.mkv")` (recording.rs line 257).
`PathBuf::join` is modelled with a `/` separator. -/
def segment_output_path (video_dir : String) : String :=
  video_dir ++ "/chunk_%04d.mkv"

/-- The value following the first occurrence of `flag` in an argument
vector. -/
def arg_after : List String → String → Option String
  | [], _ => none
  | [_], _ => none
  | a :: b :: rest, flag => if a = flag then some b else arg_after (b :: rest) flag

/-! ## Segment watcher, from `monitor_segments`
(recording.rs lines 517-602)

The watcher loops forever: every 5 seconds it reopens `segments.csv`, seeks
to `last_position` (always left at a record boundary), reads each newly
appended line, and for each well-formed line spawns one upload task.  The
model below captures one iteration of the outer loop at record granularity;
file contents are the list of newline-terminated records. -/

/-- ASCII whitespace, for the model of `str::trim` (which trims Unicode
whitespace; the segment list only ever contains ASCII). -/
def is_ascii_whitespace (c : Char) : Bool :=
  c == ' ' || c == '\t' || c == '\n' || c == '\r'

/-- `str::trim` (recording.rs line 538). -/
def rust_trim (s : String) : String :=
  String.mk (((s.data.dropWhile is_ascii_whitespace).reverse.dropWhile
    is_ascii_whitespace).reverse)

/-- `str::split(',')` (recording.rs line 538): splits at every comma,
keeping empty parts. -/
def split_on_comma : List Char → List (List Char)
  | [] => [[]]
  | c :: rest =>
    let r := split_on_comma rest
    if c = ',' then [] :: r
    else
      match r with
      | [] => [[c]]
      | h :: t => (c :: h) :: t

/-- Digit accumulator for `parse_f64`. -/
def nat_of_digits : List Char → Nat → Option Nat
  | [], acc => some acc
  | c :: rest, acc =>
    if c.isDigit then nat_of_digits rest (acc * 10 + (c.toNat - '0'.toNat))
    else none

/-- `str::parse::<f64>().unwrap_or_default()` (recording.rs lines 541-542),
at exact rational precision: an optional sign, a digit string, and an
optional fractional part, with value `sign * (int + frac / 10^k)`.  Any
other content makes the parse fail and yields the `unwrap_or_default` value
`0.0`.  The parsed value keeps its fractional part; the truncating
float-to-integer `as` casts are applied separately at the use sites
(`f64_to_i64`, `f64_to_u64`), as in the source.  Exponent/infinity/NaN
forms of the Rust `f64` grammar do not occur in a segment list, and the
sub-ulp rounding of decimal-to-`f64` conversion is outside the rational
model. -/
def parse_f64 (s : String) : ℚ :=
  let cs := s.data
  let signed : Bool × List Char :=
    match cs with
    | '-' :: rest => (true, rest)
    | '+' :: rest => (false, rest)
    | _ => (false, cs)
  let int_digits := signed.2.takeWhile Char.isDigit
  let rest := signed.2.dropWhile Char.isDigit
  let frac_digits : Option (List Char) :=
    match rest with
    | [] => some []
    | '.' :: frac => if frac.all Char.isDigit then some frac else none
    | _ => none
  match frac_digits with
  | none => 0
  | some frac =>
    if int_digits.isEmpty && frac.isEmpty then 0
    else
      match nat_of_digits int_digits 0, nat_of_digits frac 0 with
      | some i, some f =>
        -- the value `i + f / 10^k`, written as one `mkRat` because the
        -- rational field operations are sealed irreducible and would block
        -- kernel evaluation
        let den : Nat := 10 ^ frac.length
        let mag : ℚ := mkRat (i * den + f) den
        if signed.1 then -mag else mag
      | _, _ => 0

/-- Rust `f64 as i64` (saturating truncation toward zero), on the rational
model of `f64`.  Used for `start_time as i64` (recording.rs line 554). -/
def f64_to_i64 (q : ℚ) : Int :=
  let t : Int := if 0 ≤ q then Int.floor q else Int.ceil q
  max (-9223372036854775808) (min 9223372036854775807 t)

/-- Rust `f64 as u64` (saturating truncation: negative values clamp to `0`,
oversized ones to `2^64 - 1`), on the rational model of `f64`.  Used for
`(end_time - start_time) as u64` (recording.rs line 555). -/
def f64_to_u64 (q : ℚ) : Nat :=
  let t : Int := if 0 ≤ q then Int.floor q else Int.ceil q
  (min 18446744073709551615 (max 0 t)).toNat

/-- Exact subtraction on the rational model of `f64`, written with `mkRat`
because `Rat.sub` is sealed irreducible and would block kernel evaluation;
`rat_sub_eq` below proves it equal to `a - b`. -/
def rat_sub (a b : ℚ) : ℚ :=
  mkRat (a.num * b.den - b.num * a.den) (a.den * b.den)

/-- One record of the segment list, parsed as in recording.rs lines 538-542:
`trim`, split on commas, and accept exactly three parts
`(filename, start_time, end_time)`, the times as `f64` values. -/
def parse_segment_line (line : String) : Option (String × ℚ × ℚ) :=
  let parts := (split_on_comma (rust_trim line).data).map String.mk
  match parts with
  | [filename, start_time, end_time] =>
    some (filename, parse_f64 start_time, parse_f64 end_time)
  | _ => none

/-- `SaveRecordingRequest` (recording.rs lines 45-51), the JSON body POSTed
to `{BASE_URL}/recordings/fetch_save_url`.  The source's `recording_id`
field is `Uuid::new_v4()`, a fresh random identifier drawn per upload; it is
not part of the deterministic model. -/
structure SaveRecordingRequest where
  session_id : Nat
  start_timestamp_nanos : Int
  duration_ms : Nat
deriving DecidableEq

/-- One spawned upload (recording.rs lines 548-583): POST the request, then
PUT the named segment file's bytes to the returned signed URL. -/
structure UploadTask where
  filename : String
  request : SaveRecordingRequest
deriving DecidableEq

/-- The upload spawned for one new segment-list record, if it is well formed
(recording.rs lines 539-556): `start_timestamp_nanos` is `start_time as i64`
and `duration_ms` is `(end_time - start_time) as u64` — the subtraction is
performed on the `f64` (rational) values and the single truncating cast is
applied to the difference. -/
def process_segment_line (session_id : Nat) (line : String) : Option UploadTask :=
  (parse_segment_line line).map fun p =>
    ⟨p.1, ⟨session_id, f64_to_i64 p.2.1, f64_to_u64 (rat_sub p.2.2 p.2.1)⟩⟩

/-- One 5-second iteration of the `monitor_segments` outer loop, at record
granularity: `lines` is the current content of `segments.csv`,
`last_position` the number of records already consumed (the source keeps the
equivalent byte offset, updated with `stream_position` after each line).
Returns the new position and the upload tasks spawned this scan, one per
well-formed new record, in file order. -/
def monitor_segments_scan (session_id : Nat) (lines : List String)
    (last_position : Nat) : Nat × List UploadTask :=
  (lines.length, (lines.drop last_position).filterMap (process_segment_line session_id))

/-! ## Theorems -/

/-- Helper: `rat_sub` is ordinary subtraction on `ℚ`. -/
theorem rat_sub_eq (a b : ℚ) : rat_sub a b = a - b := by
  have ha : ((a.den : ℚ)) ≠ 0 := Nat.cast_ne_zero.mpr a.den_ne_zero
  have hb : ((b.den : ℚ)) ≠ 0 := Nat.cast_ne_zero.mpr b.den_ne_zero
  rw [rat_sub, Rat.mkRat_eq_div]
  conv_rhs => rw [← Rat.num_div_den a, ← Rat.num_div_den b]
  rw [div_sub_div _ _ ha hb]
  push_cast
  ring_nf

/-- Helper: `filterMap` produces exactly one output per input on which the
function is defined. -/
theorem length_filterMap_eq_length_filter {α β : Type} (f : α → Option β) :
    ∀ l : List α, (l.filterMap f).length = (l.filter fun a => (f a).isSome).length := by
  intro l
  induction l with
  | nil => rfl
  | cons a t ih =>
    cases h : f a <;>
      simp [List.filterMap_cons, List.filter_cons, h, ih]

/-- Claim C1, counterexample.  The claim describes the Segment Watcher as a
directory rescan with a chunk-index watermark that hands *at most one*
filename (the maximal index) to the Uploader per 5-second scan.  In the
source, `monitor_segments` instead tails the `segments.csv` segment list
from a saved byte offset and spawns one upload per newly appended record:
a single scan that finds the two new records `chunk_0000.mkv,0,60` and
`chunk_0001.mkv,60,120` spawns two uploads, and for both filenames, not just
the maximal index. -/
theorem monitor_scan_uploads_every_new_line :
    ((monitor_segments_scan 0 ["chunk_0000.mkv,0,60", "chunk_0001.mkv,60,120"] 0).2).length = 2
    ∧ ((monitor_segments_scan 0 ["chunk_0000.mkv,0,60", "chunk_0001.mkv,60,120"] 0).2).map
        (fun t => t.filename) = ["chunk_0000.mkv", "chunk_0001.mkv"] := by
  exact ⟨by decide, by decide⟩

/-- Claim C1, amended.  Every 5 seconds the watcher re-reads the segment
list from the position where the previous scan stopped; it spawns exactly
one upload per well-formed newly appended record (possibly several per
scan), advances the position to the end of the file, and never re-processes
a record from an earlier scan: rescanning after `new` records were appended
uploads exactly what a scan of `new` alone would, and a scan with no new
records uploads nothing. -/
theorem monitor_scan_incremental_no_reupload (session_id : Nat) (old new : List String) :
    monitor_segments_scan session_id (old ++ new) old.length
        = ((old ++ new).length, (monitor_segments_scan session_id new 0).2)
    ∧ (monitor_segments_scan session_id old old.length).2 = []
    ∧ ((monitor_segments_scan session_id new 0).2).length
        = (new.filter fun l => (parse_segment_line l).isSome).length := by
  refine ⟨?_, ?_, ?_⟩
  · simp [monitor_segments_scan, List.drop_left]
  · simp [monitor_segments_scan, List.drop_length]
  · simp only [monitor_segments_scan, List.drop_zero]
    rw [length_filterMap_eq_length_filter]
    simp [process_segment_line, Option.isSome_map]

/-- Claim C2, counterexample.  The claim states that captured input events
are POSTed to `{BASE_URL}/devents/create` exactly once per session, at stop,
as one batch.  In the source, each qualifying event spawns its own POST from
inside the capture callback, and `stop_recording` performs no
`devents/create` POST at all: a key press during the session produces a POST
immediately, while stopping (with the resulting session, or with any
session) produces none. -/
theorem devent_post_during_capture_not_at_stop :
    (event_capture_step true (0, 0) (some ⟨7, [], "out"⟩) (some 5) none
        (.keyPress .KeyA)).post.isSome = true
    ∧ devent_posts (stop_recording ⟨true, some ⟨7, [], "out"⟩⟩ true true).effects = []
    ∧ devent_posts
        (stop_recording
          ⟨true, (event_capture_step true (0, 0) (some ⟨7, [], "out"⟩) (some 5) none
            (.keyPress .KeyA)).session⟩ true true).effects = [] :=
  ⟨rfl, rfl, rfl⟩

/-- Claim C2, amended.  Captured events are POSTed to
`{BASE_URL}/devents/create` individually at capture time: a capture-callback
invocation spawns exactly one POST precisely when recording is on, the clock
is available, the session slot is occupied, and the event is a button press,
key press, or wheel event; neither `start_recording` nor `stop_recording`
ever POSTs to this endpoint. -/
theorem devent_posts_per_event_only :
    (∀ (st : RecorderState) (csv_ok canonicalize_ok : Bool),
        devent_posts (stop_recording st csv_ok canonicalize_ok).effects = [])
    ∧ (∀ (st : RecorderState) (new_session : Option RecordingSession) (spawn : SpawnOutcome),
        devent_posts (start_recording st new_session spawn).effects = [])
    ∧ (∀ (is_recording : Bool) (last_mouse_pos : ℚ × ℚ)
        (session : Option RecordingSession) (clock : Option Nat)
        (scale_factor : Option ℚ) (event : EventType),
        (event_capture_step is_recording last_mouse_pos session clock
            scale_factor event).post.isSome
          = (is_recording && clock.isSome && session.isSome && posts_devent event)) := by
  refine ⟨?_, ?_, ?_⟩
  · rintro ⟨b, sess⟩ csv_ok canonicalize_ok
    cases sess <;> cases csv_ok <;> cases canonicalize_ok <;> rfl
  · rintro ⟨b, sess⟩ new_session spawn
    cases sess
    · cases new_session
      · rfl
      · cases spawn <;> rfl
    · rfl
  · intro is_recording last_mouse_pos session clock scale_factor event
    cases is_recording <;> cases clock <;> cases session <;> cases event <;> rfl

/-- Claim C3, code bug.  The claim (and the spec's round-trip property)
requires `start` then `stop` to leave the Session Store slot empty and a
second `stop` to fail with `NotActive`.  `stop_recording` in the source
accesses the slot with `as_mut()` and never `take()`s it, so after a
successful start/stop cycle the slot still holds the session; a second stop
therefore succeeds again, rewriting `events.csv` and re-emitting
`recording_complete` instead of returning an error.  This theorem evaluates
the model on that failing trace. -/
theorem stop_leaves_slot_occupied_second_stop_ok :
    (start_recording ⟨false, none⟩ (some ⟨7, [], "out"⟩) .spawnOk).result = .ok ()
    ∧ (stop_recording (start_recording ⟨false, none⟩ (some ⟨7, [], "out"⟩) .spawnOk).state
        true true).result = .ok ()
    ∧ (stop_recording (start_recording ⟨false, none⟩ (some ⟨7, [], "out"⟩) .spawnOk).state
        true true).state.session = some ⟨7, [], "out"⟩
    ∧ (stop_recording
        (stop_recording (start_recording ⟨false, none⟩ (some ⟨7, [], "out"⟩) .spawnOk).state
          true true).state true true).result = .ok ()
    ∧ (stop_recording
        (stop_recording (start_recording ⟨false, none⟩ (some ⟨7, [], "out"⟩) .spawnOk).state
          true true).state true true).effects ≠ [] :=
  ⟨rfl, rfl, rfl, rfl, List.cons_ne_nil _ _⟩

/-- Claim C4, counterexample.  The claim states that key releases and button
releases are dropped and leave the event buffer unchanged.  In the source
the `RecordingEvent` is pushed onto the session buffer *before* the event is
classified, so a key release is appended (only the network POST is skipped):
delivering `KeyRelease(KeyA)` to a session with an empty buffer leaves a
one-element buffer. -/
theorem key_release_appended_to_buffer :
    (event_capture_step true (0, 0) (some ⟨7, [], "out"⟩) (some 5) none
        (.keyRelease .KeyA)).session
      = some ⟨7, [⟨5, .keyRelease .KeyA, 0, 0⟩], "out"⟩
    ∧ (event_capture_step true (0, 0) (some ⟨7, [], "out"⟩) (some 5) none
        (.keyRelease .KeyA)).session ≠ some ⟨7, [], "out"⟩ :=
  ⟨rfl, by simp [event_capture_step]⟩

/-- Claim C4, amended.  For every OS input event delivered while recording
(with the clock available and an active session): a pointer move only
updates the cached last pointer position to `(x*scale, y*scale)` and is
never appended; a button press, key press, or wheel event is appended to the
session buffer and produces exactly one Input Event request carrying exactly
one corresponding action variant (keyboard duration fixed at 100 ms); key
and button releases are also appended to the session buffer but produce no
Input Event request. -/
theorem event_capture_step_classification (last_mouse_pos : ℚ × ℚ)
    (s : RecordingSession) (t : Nat) (scale_factor : Option ℚ) :
    (∀ (x y : ℚ) (session : Option RecordingSession),
        event_capture_step true last_mouse_pos session (some t) scale_factor (.mouseMove x y)
          = ⟨(x * scale_factor.getD 1, y * scale_factor.getD 1), session, none⟩)
    ∧ (∀ btn, event_capture_step true last_mouse_pos (some s) (some t) scale_factor
          (.buttonPress btn)
        = ⟨last_mouse_pos,
           some { s with events := s.events
             ++ [⟨t, .buttonPress btn, last_mouse_pos.1, last_mouse_pos.2⟩] },
           some ⟨s.id, some (button_into btn), none, none,
                 f64_to_i32 last_mouse_pos.1, f64_to_i32 last_mouse_pos.2, u64_to_i64 t⟩⟩)
    ∧ (∀ key, event_capture_step true last_mouse_pos (some s) (some t) scale_factor
          (.keyPress key)
        = ⟨last_mouse_pos,
           some { s with events := s.events
             ++ [⟨t, .keyPress key, last_mouse_pos.1, last_mouse_pos.2⟩] },
           some ⟨s.id, none, some ⟨key_into key, 100⟩, none,
                 f64_to_i32 last_mouse_pos.1, f64_to_i32 last_mouse_pos.2, u64_to_i64 t⟩⟩)
    ∧ (∀ delta_x delta_y, event_capture_step true last_mouse_pos (some s) (some t) scale_factor
          (.wheel delta_x delta_y)
        = ⟨last_mouse_pos,
           some { s with events := s.events
             ++ [⟨t, .wheel delta_x delta_y, last_mouse_pos.1, last_mouse_pos.2⟩] },
           some ⟨s.id, none, none, some ⟨i64_to_i32 delta_x, i64_to_i32 delta_y⟩,
                 f64_to_i32 last_mouse_pos.1, f64_to_i32 last_mouse_pos.2, u64_to_i64 t⟩⟩)
    ∧ (∀ key, event_capture_step true last_mouse_pos (some s) (some t) scale_factor
          (.keyRelease key)
        = ⟨last_mouse_pos,
           some { s with events := s.events
             ++ [⟨t, .keyRelease key, last_mouse_pos.1, last_mouse_pos.2⟩] },
           none⟩)
    ∧ (∀ btn, event_capture_step true last_mouse_pos (some s) (some t) scale_factor
          (.buttonRelease btn)
        = ⟨last_mouse_pos,
           some { s with events := s.events
             ++ [⟨t, .buttonRelease btn, last_mouse_pos.1, last_mouse_pos.2⟩] },
           none⟩) :=
  ⟨fun _ _ _ => rfl, fun _ => rfl, fun _ => rfl,
   fun _ _ => rfl, fun _ => rfl, fun _ => rfl⟩

/-- Claim C5, counterexample.  The claim states that an encoder-spawn
failure aborts the session, surfaces `EncoderUnavailable` to the caller of
`start`, and leaves the Session Store slot empty.  In the source the spawn
happens on a detached worker thread after `start_recording` has already
stored the session and returned `Ok`; the failing thread logs and panics by
itself.  With a failing spawn, `start` still returns `Ok` and the slot still
holds the new session. -/
theorem spawn_failure_start_still_ok :
    (start_recording ⟨false, none⟩ (some ⟨7, [], "out"⟩) .spawnFail).result = .ok ()
    ∧ (start_recording ⟨false, none⟩ (some ⟨7, [], "out"⟩) .spawnFail).state.session
        = some ⟨7, [], "out"⟩ :=
  ⟨rfl, rfl⟩

/-- Claim C5, amended.  If the encoder subprocess cannot be spawned, the
failure is only logged (the detached ffmpeg worker thread logs
`Failed to start FFmpeg` and panics); `start` still returns `Ok` and the
Session Store slot keeps the new session, so a later `start` fails with
`AlreadyActive` rather than succeeding.  The tauri command wrapper discards
even that `Result`. -/
theorem spawn_failure_logged_slot_occupied (s : RecordingSession) :
    start_recording ⟨false, none⟩ (some s) .spawnFail
      = ⟨⟨true, some s⟩, .ok (),
         [.emitEvent "recording_started", .logError "Failed to start FFmpeg"]⟩
    ∧ (∀ (new_session : Option RecordingSession) (spawn : SpawnOutcome),
        (start_recording ⟨true, some s⟩ new_session spawn).result = .error .alreadyActive)
    ∧ (start_recording_command ⟨false, none⟩ (some s) .spawnFail).1 = ⟨true, some s⟩ :=
  ⟨rfl, fun _ _ => rfl, rfl⟩

/-- Claim C6, counterexample.  The claim states 15-second segments; the
ffmpeg invocation passes `-segment_time 60` (recording.rs line 175, with the
source's own comment `// 60 seconds per chunk`), not 15. -/
theorem segment_time_is_60_not_15 :
    arg_after (get_ffmpeg_command .macos "chunks/chunk_%04d.mkv" "segments.csv"
        "timestamps.txt") "-segment_time" = some "60"
    ∧ arg_after (get_ffmpeg_command .macos "chunks/chunk_%04d.mkv" "segments.csv"
        "timestamps.txt") "-segment_time" ≠ some "15" :=
  ⟨by decide, by decide⟩

/-- Claim C6, amended.  On every platform the encoder is invoked to capture
at 30 fps and to write fixed-duration 60-second mkv segments; the output
path handed to the encoder is the printf template `chunk_%04d.mkv` inside
the recordings directory, and that template path is part of the argument
vector. -/
theorem ffmpeg_command_framerate_segments (platform : Platform)
    (segment_csv_path timestamp_path video_dir : String) :
    arg_after (get_ffmpeg_command platform (segment_output_path video_dir)
        segment_csv_path timestamp_path) "-framerate" = some "30"
    ∧ arg_after (get_ffmpeg_command platform (segment_output_path video_dir)
        segment_csv_path timestamp_path) "-segment_time" = some "60"
    ∧ arg_after (get_ffmpeg_command platform (segment_output_path video_dir)
        segment_csv_path timestamp_path) "-segment_format" = some "mkv"
    ∧ segment_output_path video_dir
        ∈ get_ffmpeg_command platform (segment_output_path video_dir)
            segment_csv_path timestamp_path := by
  refine ⟨?_, ?_, ?_, ?_⟩
  · cases platform <;> rfl
  · cases platform <;> rfl
  · cases platform <;> rfl
  · cases platform <;> simp [get_ffmpeg_command, ffmpeg_input_args]

/-- Claim C7, counterexample.  The claim states that `start_timestamp_nanos`
and `duration_ms` are zero in every Upload Request.  The source fills them
from the parsed segment-list record (`start_time as i64` and
`(end_time - start_time) as u64`): the record `chunk_0000.mkv,5,65` produces
a request with `start_timestamp_nanos = 5` and `duration_ms = 60`. -/
theorem upload_request_fields_nonzero :
    (monitor_segments_scan 0 ["chunk_0000.mkv,5,65"] 0).2
      = [⟨"chunk_0000.mkv", ⟨0, 5, 60⟩⟩]
    ∧ (⟨"chunk_0000.mkv", ⟨0, 5, 60⟩⟩ : UploadTask).request.start_timestamp_nanos ≠ 0
    ∧ (⟨"chunk_0000.mkv", ⟨0, 5, 60⟩⟩ : UploadTask).request.duration_ms ≠ 0 :=
  ⟨by decide, by decide, by decide⟩

/-- Claim C7, amended.  In every Upload Request POSTed to
`{BASE_URL}/recordings/fetch_save_url`, the two numeric fields are populated
from the segment-list record that triggered the upload:
`start_timestamp_nanos` is the record's start time cast `as i64` (truncating
toward zero) and `duration_ms` is the difference `end - start`, computed on
the `f64` values, cast `as u64` (truncating, with negative differences
clamped to 0); they are zero only when the record's times make them so (for
example when parsing fails). -/
theorem upload_request_fields_from_csv (session_id : Nat) (lines : List String)
    (last_position : Nat) (line filename : String) (start_time end_time : ℚ)
    (hmem : line ∈ lines.drop last_position)
    (hparse : parse_segment_line line = some (filename, start_time, end_time)) :
    (⟨filename, ⟨session_id, f64_to_i64 start_time,
        f64_to_u64 (end_time - start_time)⟩⟩ : UploadTask)
      ∈ (monitor_segments_scan session_id lines last_position).2 := by
  refine List.mem_filterMap.mpr ⟨line, hmem, ?_⟩
  simp [process_segment_line, hparse, rat_sub_eq]

/-- Witness for `upload_request_fields_from_csv` at the concrete record
`chunk_0001.mkv,59.5,119.4`: the start stamp truncates to `59` and the
duration is `trunc(119.4 - 59.5) = trunc(59.9) = 59` — truncation of the
difference, not the difference of truncations (which would give `60`). -/
theorem upload_request_fields_from_csv_witness :
    "chunk_0001.mkv,59.5,119.4" ∈ (["chunk_0001.mkv,59.5,119.4"].drop 0)
    ∧ parse_segment_line "chunk_0001.mkv,59.5,119.4"
        = some ("chunk_0001.mkv", mkRat 119 2, mkRat 597 5)
    ∧ (⟨"chunk_0001.mkv", ⟨0, f64_to_i64 (mkRat 119 2),
          f64_to_u64 (mkRat 597 5 - mkRat 119 2)⟩⟩ : UploadTask)
        ∈ (monitor_segments_scan 0 ["chunk_0001.mkv,59.5,119.4"] 0).2
    ∧ f64_to_i64 (mkRat 119 2) = 59
    ∧ f64_to_u64 (mkRat 597 5 - mkRat 119 2) = 59 :=
  ⟨by decide, by decide,
   upload_request_fields_from_csv 0 ["chunk_0001.mkv,59.5,119.4"] 0
     "chunk_0001.mkv,59.5,119.4" "chunk_0001.mkv" (mkRat 119 2) (mkRat 597 5)
     (by decide) (by decide),
   by decide,
   by rw [← rat_sub_eq]; decide⟩

/-- Claim C8, confirmed.  The Session Store slot is a single
`Option RecordingSession`, so it holds at most one session by construction;
a `start` call while the slot is occupied returns the
`Recording is already in progress` error (`AlreadyActive`) before any
mutation, leaving the state — in particular the stored session with its id,
paths and event buffer — exactly unchanged and performing no effect. -/
theorem start_with_active_session_already_active (b : Bool) (s : RecordingSession)
    (new_session : Option RecordingSession) (spawn : SpawnOutcome) :
    start_recording ⟨b, some s⟩ new_session spawn
      = ⟨⟨b, some s⟩, .error .alreadyActive, []⟩ :=
  rfl

/-- Claim C9, confirmed.  On every successful stop with an active session,
the full event buffer is written to `events.csv` inside the session's output
directory — the header plus exactly one record per buffered event, each
carrying the timestamp, event type, details, and mouse coordinates — and
`recording_complete` is emitted; if the CSV write fails, `stop_recording`
returns the propagated error and does not emit. -/
theorem stop_writes_events_csv (b : Bool) (s : RecordingSession) :
    stop_recording ⟨b, some s⟩ true true
      = ⟨⟨false, some s⟩, .ok (),
         [.writeCsv (s.output_dir ++ "/events.csv") (save_events_to_csv s),
          .emitEvent "recording_complete"]⟩
    ∧ (save_events_to_csv s).length = s.events.length + 1
    ∧ (∀ canonicalize_ok, stop_recording ⟨b, some s⟩ false canonicalize_ok
        = ⟨⟨false, some s⟩, .error .csvWriteFailed, []⟩) := by
  refine ⟨rfl, ?_, fun canonicalize_ok => rfl⟩
  simp [save_events_to_csv]

/-- Claim C10, confirmed.  The conversion from OS key codes to the symbolic
key enumeration is total (every `Key` maps to some `KeyboardActionKey`);
left/right shift, control and meta, and both `Alt` and `AltGr`, collapse to
the single corresponding modifier; an OS-reported unknown key keeps its raw
scan code as `Unknown(code)`; and the unmapped variants — `F13`–`F24` and
the keypad keys among them — all map to `Unknown(0)`, losing their
identity. -/
theorem key_into_collapse_and_unknown :
    (∀ k : Key, ∃ v : KeyboardActionKey, key_into k = v)
    ∧ (∀ code : Nat, key_into (Key.Unknown code) = KeyboardActionKey.Unknown code)
    ∧ key_into Key.ShiftLeft = KeyboardActionKey.Shift
    ∧ key_into Key.ShiftRight = KeyboardActionKey.Shift
    ∧ key_into Key.ControlLeft = KeyboardActionKey.Control
    ∧ key_into Key.ControlRight = KeyboardActionKey.Control
    ∧ key_into Key.MetaLeft = KeyboardActionKey.Meta
    ∧ key_into Key.MetaRight = KeyboardActionKey.Meta
    ∧ key_into Key.Alt = KeyboardActionKey.Alt
    ∧ key_into Key.AltGr = KeyboardActionKey.Alt
    ∧ key_into Key.F13 = KeyboardActionKey.Unknown 0
    ∧ key_into Key.F14 = KeyboardActionKey.Unknown 0
    ∧ key_into Key.F15 = KeyboardActionKey.Unknown 0
    ∧ key_into Key.F16 = KeyboardActionKey.Unknown 0
    ∧ key_into Key.F17 = KeyboardActionKey.Unknown 0
    ∧ key_into Key.F18 = KeyboardActionKey.Unknown 0
    ∧ key_into Key.F19 = KeyboardActionKey.Unknown 0
    ∧ key_into Key.F20 = KeyboardActionKey.Unknown 0
    ∧ key_into Key.F21 = KeyboardActionKey.Unknown 0
    ∧ key_into Key.F22 = KeyboardActionKey.Unknown 0
    ∧ key_into Key.F23 = KeyboardActionKey.Unknown 0
    ∧ key_into Key.F24 = KeyboardActionKey.Unknown 0
    ∧ key_into Key.KpReturn = KeyboardActionKey.Unknown 0
    ∧ key_into Key.KpMinus = KeyboardActionKey.Unknown 0
    ∧ key_into Key.KpPlus = KeyboardActionKey.Unknown 0
    ∧ key_into Key.KpMultiply = KeyboardActionKey.Unknown 0
    ∧ key_into Key.KpDivide = KeyboardActionKey.Unknown 0
    ∧ key_into Key.KpDecimal = KeyboardActionKey.Unknown 0
    ∧ key_into Key.KpEqual = KeyboardActionKey.Unknown 0
    ∧ key_into Key.KpComma = KeyboardActionKey.Unknown 0
    ∧ key_into Key.Kp0 = KeyboardActionKey.Unknown 0
    ∧ key_into Key.Kp1 = KeyboardActionKey.Unknown 0
    ∧ key_into Key.Kp2 = KeyboardActionKey.Unknown 0
    ∧ key_into Key.Kp3 = KeyboardActionKey.Unknown 0
    ∧ key_into Key.Kp4 = KeyboardActionKey.Unknown 0
    ∧ key_into Key.Kp5 = KeyboardActionKey.Unknown 0
    ∧ key_into Key.Kp6 = KeyboardActionKey.Unknown 0
    ∧ key_into Key.Kp7 = KeyboardActionKey.Unknown 0
    ∧ key_into Key.Kp8 = KeyboardActionKey.Unknown 0
    ∧ key_into Key.Kp9 = KeyboardActionKey.Unknown 0 := by
  refine ⟨fun k => ⟨key_into k, rfl⟩, fun code => rfl, ?_⟩
  repeat' apply And.intro
  all_goals rfl

end Ghost
